import Mathlib

/-!
Shallow embedding of the transaction engine (src/src/engine/client.rs and
src/src/engine/transaction_engine.rs).

Monetary amounts are modelled as exact rationals: the specification mandates
fixed-point/exact decimal arithmetic for the ledger (its stated invariants are
"exact, no rounding drift"), so binary floating-point rounding is out of scope
here and every arithmetic step of the source is mirrored exactly.

Client and engine maps (Rust `HashMap`) are modelled as functions to `Option`,
with pointwise insertion. Rust `Result` values returned by the ledger
operations are always `Ok`, so the operations are modelled as total state
transformers; the `unwrap()` calls on missing record fields in
`process_transactions` are modelled by `Option` (a `none` result is a panic
that aborts the run).
-/

/-- `TransactionType` from client.rs. -/
inductive TransactionType where
  | Deposit
  | Withdrawal
  | Dispute
  | Resolve
  | Chargeback
deriving DecidableEq, Repr

/-- `impl From<String> for TransactionType`: unrecognized strings fall back to
`Dispute`. -/
def TransactionType.fromString (value : String) : TransactionType :=
  if value = "deposit" then TransactionType.Deposit
  else if value = "withdrawal" then TransactionType.Withdrawal
  else if value = "resolve" then TransactionType.Resolve
  else if value = "chargeback" then TransactionType.Chargeback
  else TransactionType.Dispute

/-- `Client` struct from client.rs: balances, lock flag and per-transaction
history `tx_id -> (kind, amount)`. -/
structure Client where
  _id : Nat
  available : ℚ
  held : ℚ
  total : ℚ
  locked : Bool
  transactions : Nat → Option (TransactionType × ℚ)

/-- `Client::new`: seeds `available` with the record's amount, `total` only
when the seeding record is a Deposit, and stores the record in the history. -/
def Client.new (id : Nat) (tx_id : Nat) (transaction_type : TransactionType)
    (amount : ℚ) : Client :=
  { _id := id
    available := amount
    held := 0
    total := if transaction_type = TransactionType.Deposit then amount else 0
    locked := false
    transactions := fun k => if k = tx_id then some (transaction_type, amount) else none }

/-- `Client::perform_deposit`. -/
def Client.perform_deposit (c : Client) (tx_id : Nat) (tx_type : TransactionType)
    (amount : ℚ) : Client :=
  { c with
    available := c.available + amount
    total := c.available + amount + c.held
    transactions := fun k => if k = tx_id then some (tx_type, amount) else c.transactions k }

/-- `Client::perform_withdrawal`: applies only when `available > amount` and
the account is not locked; otherwise a silent no-op. -/
def Client.perform_withdrawal (c : Client) (tx_id : Nat) (tx_type : TransactionType)
    (amount : ℚ) : Client :=
  if c.available > amount ∧ c.locked = false then
    { c with
      available := c.available - amount
      total := c.available - amount + c.held
      transactions := fun k => if k = tx_id then some (tx_type, amount) else c.transactions k }
  else c

/-- `Client::perform_dispute`: applies whenever `tx_id` is present in the
history, whatever the stored kind; `total` is not recomputed. -/
def Client.perform_dispute (c : Client) (tx_id : Nat) : Client :=
  match c.transactions tx_id with
  | some (_, amount) =>
      { c with
        available := c.available - amount
        held := c.held + amount
        transactions := fun k =>
          if k = tx_id then some (TransactionType.Dispute, amount) else c.transactions k }
  | none => c

/-- `Client::perform_resolve`: applies only when the stored kind is `Dispute`
and the account is not locked. -/
def Client.perform_resolve (c : Client) (tx_id : Nat) : Client :=
  match c.transactions tx_id with
  | some (kind, amount) =>
      if kind = TransactionType.Dispute ∧ c.locked = false then
        { c with
          available := c.available + amount
          held := c.held - amount
          transactions := fun k =>
            if k = tx_id then some (TransactionType.Resolve, amount) else c.transactions k }
      else c
  | none => c

/-- `Client::perform_chargeback`: applies only when the stored kind is
`Dispute`; locks the account. -/
def Client.perform_chargeback (c : Client) (tx_id : Nat) : Client :=
  match c.transactions tx_id with
  | some (kind, amount) =>
      if kind = TransactionType.Dispute then
        { c with
          held := c.held - amount
          total := c.available + (c.held - amount)
          locked := true
          transactions := fun k =>
            if k = tx_id then some (TransactionType.Chargeback, amount) else c.transactions k }
      else c
  | none => c

/-- `Client::execute_transaction`. -/
def Client.execute_transaction (c : Client) (tx_id : Nat)
    (transaction_type : TransactionType) (amount : ℚ) : Client :=
  match transaction_type with
  | TransactionType.Deposit => c.perform_deposit tx_id transaction_type amount
  | TransactionType.Withdrawal => c.perform_withdrawal tx_id transaction_type amount
  | TransactionType.Dispute => c.perform_dispute tx_id
  | TransactionType.Resolve => c.perform_resolve tx_id
  | TransactionType.Chargeback => c.perform_chargeback tx_id

/-- `Record` from transaction_engine.rs: the CSV row with optional fields. -/
structure Record where
  type : String
  client : Option Nat
  tx : Option Nat
  amount : Option ℚ

/-- `TransactionEngine`: the client map. -/
structure TransactionEngine where
  clients : Nat → Option Client

/-- `TransactionEngine::new`. -/
def TransactionEngine.new : TransactionEngine :=
  { clients := fun _ => none }

/-- Insertion into the engine's client map. -/
def TransactionEngine.insertClient (e : TransactionEngine) (cid : Nat) (c : Client) :
    TransactionEngine :=
  { clients := fun k => if k = cid then some c else e.clients k }

/-- `TransactionEngine::process_transactions`: unwraps `client` and `tx`
(panicking — `none` — when either is absent), defaults a missing amount to
zero, then either seeds a fresh client from the record or dispatches the
ledger operation to the existing client. -/
def TransactionEngine.process_transactions (e : TransactionEngine) (record : Record) :
    Option TransactionEngine :=
  match record.client, record.tx with
  | some client_id, some tx_id =>
      let amount := record.amount.getD 0
      let transaction_type := TransactionType.fromString record.type
      match e.clients client_id with
      | none =>
          some (e.insertClient client_id (Client.new client_id tx_id transaction_type amount))
      | some c =>
          some (e.insertClient client_id (c.execute_transaction tx_id transaction_type amount))
  | _, _ => none

/-- Folding a whole sequence of ledger operations over one client. -/
def Client.apply_all (c : Client) (ops : List (Nat × TransactionType × ℚ)) : Client :=
  ops.foldl (fun acc p => acc.execute_transaction p.1 p.2.1 p.2.2) c

/-! ## Concrete states used by witnesses and counterexamples -/

/-- Unlocked client with 5 available, 2 held, and an empty history. -/
def c5client : Client :=
  { _id := 7
    available := 5
    held := 2
    total := 7
    locked := false
    transactions := fun _ => none }

/-- Unlocked client whose history holds a deposit of 5 at tx 1. -/
def c6client : Client :=
  { _id := 1
    available := 5
    held := 0
    total := 5
    locked := false
    transactions := fun k => if k = 1 then some (TransactionType.Deposit, 5) else none }

/-- Unlocked client with zero balances whose history holds a resolved tx 1 of
amount 5. -/
def c3client : Client :=
  { _id := 2
    available := 0
    held := 0
    total := 0
    locked := false
    transactions := fun k => if k = 1 then some (TransactionType.Resolve, 5) else none }

/-- Locked client with 5 held and a disputed tx 1 of amount 5. -/
def c4client : Client :=
  { _id := 3
    available := 0
    held := 5
    total := 5
    locked := true
    transactions := fun k => if k = 1 then some (TransactionType.Dispute, 5) else none }

/-- Record whose client identifier is absent. -/
def c2record : Record :=
  { type := "deposit", client := none, tx := some 1, amount := some 5 }

/-- First-sight dispute record for client 1, tx 1, no amount. -/
def c7recordDispute : Record :=
  { type := "dispute", client := some 1, tx := some 1, amount := none }

/-- Chargeback record for client 1, tx 1, no amount. -/
def c7recordChargeback : Record :=
  { type := "chargeback", client := some 1, tx := some 1, amount := none }

/-- Deposit of 10 for client 1 at tx 1. -/
def c9record1 : Record :=
  { type := "deposit", client := some 1, tx := some 1, amount := some 10 }

/-- Dispute of tx 1 for client 1. -/
def c9record2 : Record :=
  { type := "dispute", client := some 1, tx := some 1, amount := none }

/-- Chargeback of tx 1 for client 1. -/
def c9record3 : Record :=
  { type := "chargeback", client := some 1, tx := some 1, amount := none }

/-! ## Claims -/

/-- Claim C1 (code bug): the stored `total` is supposed to equal
`available + held` at every point, but `Client::new` seeds `total` with 0 for
any non-Deposit first record while still crediting `available` with the
record's amount. Evaluated at the failing input: a fresh client whose first
record is a Withdrawal of 5 has `available + held = 5` yet `total = 0`. -/
theorem c1_creation_total_mismatch :
    (Client.new 1 1 TransactionType.Withdrawal 5).available +
      (Client.new 1 1 TransactionType.Withdrawal 5).held = 5 ∧
    (Client.new 1 1 TransactionType.Withdrawal 5).total = 0 ∧
    (Client.new 1 1 TransactionType.Withdrawal 5).total ≠
      (Client.new 1 1 TransactionType.Withdrawal 5).available +
        (Client.new 1 1 TransactionType.Withdrawal 5).held := by
  refine ⟨by simp [Client.new], by simp [Client.new], by simp [Client.new]⟩

/-- Claim C5 (confirmed): on an unlocked client, a Withdrawal of exactly the
available balance is a silent no-op, while a Withdrawal of a strictly smaller
amount debits `available`, recomputes `total`, and records
`(Withdrawal, amount)` in the history. -/
theorem c5_strict_withdrawal_bound (c : Client) (tx : Nat) (a : ℚ)
    (hunlocked : c.locked = false) :
    c.execute_transaction tx TransactionType.Withdrawal c.available = c ∧
    (a < c.available →
      c.execute_transaction tx TransactionType.Withdrawal a =
        { c with
          available := c.available - a
          total := c.available - a + c.held
          transactions := fun k =>
            if k = tx then some (TransactionType.Withdrawal, a) else c.transactions k }) := by
  constructor
  · simp [Client.execute_transaction, Client.perform_withdrawal]
  · intro h
    simp [Client.execute_transaction, Client.perform_withdrawal, h, hunlocked]

/-- Witness for C5 at a concrete unlocked client and amount. -/
theorem c5_strict_withdrawal_bound_witness :
    c5client.locked = false ∧
    (c5client.execute_transaction 3 TransactionType.Withdrawal c5client.available = c5client ∧
     ((2 : ℚ) < c5client.available →
       c5client.execute_transaction 3 TransactionType.Withdrawal 2 =
         { c5client with
           available := c5client.available - 2
           total := c5client.available - 2 + c5client.held
           transactions := fun k =>
             if k = 3 then some (TransactionType.Withdrawal, 2)
             else c5client.transactions k })) :=
  ⟨rfl, c5_strict_withdrawal_bound c5client 3 2 rfl⟩

/-- Claim C6 (confirmed): Dispute on an unknown tx is a silent no-op leaving
the whole client unchanged; Dispute on a known tx of recorded amount `a`
moves `a` from `available` to `held` and overwrites the history entry to
`(Dispute, a)`. -/
theorem c6_dispute_semantics (c : Client) (tx : Nat) :
    (c.transactions tx = none → c.perform_dispute tx = c) ∧
    (∀ k a, c.transactions tx = some (k, a) →
      (c.perform_dispute tx).available = c.available - a ∧
      (c.perform_dispute tx).held = c.held + a ∧
      (c.perform_dispute tx).transactions tx = some (TransactionType.Dispute, a)) := by
  constructor
  · intro h
    simp [Client.perform_dispute, h]
  · intro k a h
    simp [Client.perform_dispute, h]

/-- Witness for C6: an unknown tx (2) is a no-op, a known deposit (tx 1,
amount 5) is moved into dispute. -/
theorem c6_dispute_semantics_witness :
    (c6client.perform_dispute 2 = c6client) ∧
    ((c6client.perform_dispute 1).available = c6client.available - 5 ∧
     (c6client.perform_dispute 1).held = c6client.held + 5 ∧
     (c6client.perform_dispute 1).transactions 1 = some (TransactionType.Dispute, 5)) :=
  ⟨(c6_dispute_semantics c6client 2).1 rfl,
   (c6_dispute_semantics c6client 1).2 TransactionType.Deposit 5 rfl⟩

/-- Counterexample to claim C3: `perform_dispute` checks only that the tx
exists, not its kind, so Dispute re-issued on an already-resolved tx is not a
no-op: it debits `available` to -5, credits `held` to 5, and flips the history
entry back to `Dispute`. -/
theorem c3_dispute_after_resolve_not_noop :
    c3client.transactions 1 = some (TransactionType.Resolve, 5) ∧
    c3client.available = 0 ∧
    c3client.held = 0 ∧
    (c3client.perform_dispute 1).available = -5 ∧
    (c3client.perform_dispute 1).held = 5 ∧
    (c3client.perform_dispute 1).transactions 1 = some (TransactionType.Dispute, 5) := by
  refine ⟨rfl, rfl, rfl, ?_, ?_, ?_⟩ <;> simp [c3client, Client.perform_dispute]

/-- Claim C3 (corrected): on a history entry of kind Resolve or Chargeback,
re-issuing Resolve or Chargeback is a full no-op, but re-issuing Dispute
re-applies the dispute (it only requires the tx to exist). -/
theorem c3_terminal_reissue (c : Client) (tx : Nat) (k : TransactionType) (a : ℚ)
    (htx : c.transactions tx = some (k, a))
    (hk : k = TransactionType.Resolve ∨ k = TransactionType.Chargeback) :
    c.perform_resolve tx = c ∧
    c.perform_chargeback tx = c ∧
    (c.perform_dispute tx).available = c.available - a ∧
    (c.perform_dispute tx).held = c.held + a ∧
    (c.perform_dispute tx).transactions tx = some (TransactionType.Dispute, a) := by
  have hkd : ¬k = TransactionType.Dispute := by
    rcases hk with h | h <;> subst h <;> simp
  refine ⟨?_, ?_, ?_, ?_, ?_⟩ <;>
    simp [Client.perform_resolve, Client.perform_chargeback, Client.perform_dispute, htx, hkd]

/-- Witness for C3 (amended) at the resolved tx of `c3client`. -/
theorem c3_terminal_reissue_witness :
    (c3client.transactions 1 = some (TransactionType.Resolve, 5) ∧
     (TransactionType.Resolve = TransactionType.Resolve ∨
      TransactionType.Resolve = TransactionType.Chargeback)) ∧
    (c3client.perform_resolve 1 = c3client ∧
     c3client.perform_chargeback 1 = c3client ∧
     (c3client.perform_dispute 1).available = c3client.available - 5 ∧
     (c3client.perform_dispute 1).held = c3client.held + 5 ∧
     (c3client.perform_dispute 1).transactions 1 = some (TransactionType.Dispute, 5)) :=
  ⟨⟨rfl, Or.inl rfl⟩,
   c3_terminal_reissue c3client 1 TransactionType.Resolve 5 rfl (Or.inl rfl)⟩

/-- Counterexample to claim C4: on a locked account, Resolve is a silent no-op
even when its tx-existence and dispute-kind preconditions hold
(`perform_resolve` additionally requires the account to be unlocked), so the
dispute-lifecycle transition does not apply its effect. -/
theorem c4_locked_resolve_counterexample :
    c4client.locked = true ∧
    c4client.transactions 1 = some (TransactionType.Dispute, 5) ∧
    c4client.perform_resolve 1 = c4client ∧
    (c4client.perform_resolve 1).held = 5 ∧
    (c4client.perform_resolve 1).held ≠ c4client.held - 5 := by
  refine ⟨rfl, rfl, ?_, ?_, ?_⟩ <;> simp [c4client, Client.perform_resolve]

/-- Claim C4 (corrected): once locked, a Withdrawal is a full no-op and a
Deposit still credits `available`; Dispute and Chargeback still apply their
effects whenever their preconditions hold, but Resolve additionally requires
the account to be unlocked, so on a locked account Resolve is always a
no-op. -/
theorem c4_locked_behavior (c : Client) (tx : Nat) (ty : TransactionType) (a : ℚ)
    (hlocked : c.locked = true) :
    c.perform_withdrawal tx ty a = c ∧
    (c.perform_deposit tx ty a).available = c.available + a ∧
    (∀ k amt, c.transactions tx = some (k, amt) →
      (c.perform_dispute tx).available = c.available - amt ∧
      (c.perform_dispute tx).held = c.held + amt) ∧
    (∀ amt, c.transactions tx = some (TransactionType.Dispute, amt) →
      (c.perform_chargeback tx).held = c.held - amt ∧
      (c.perform_chargeback tx).locked = true) ∧
    c.perform_resolve tx = c := by
  refine ⟨?_, ?_, ?_, ?_, ?_⟩
  · simp [Client.perform_withdrawal, hlocked]
  · simp [Client.perform_deposit]
  · intro k amt htx
    simp [Client.perform_dispute, htx]
  · intro amt htx
    simp [Client.perform_chargeback, htx]
  · simp only [Client.perform_resolve]
    repeat' split <;> simp_all

/-- Witness for C4 (amended) at the locked client `c4client`. -/
theorem c4_locked_behavior_witness :
    c4client.locked = true ∧
    (c4client.perform_withdrawal 2 TransactionType.Withdrawal 3 = c4client ∧
     (c4client.perform_deposit 2 TransactionType.Deposit 3).available =
       c4client.available + 3 ∧
     (∀ k amt, c4client.transactions 1 = some (k, amt) →
       (c4client.perform_dispute 1).available = c4client.available - amt ∧
       (c4client.perform_dispute 1).held = c4client.held + amt) ∧
     (∀ amt, c4client.transactions 1 = some (TransactionType.Dispute, amt) →
       (c4client.perform_chargeback 1).held = c4client.held - amt ∧
       (c4client.perform_chargeback 1).locked = true) ∧
     c4client.perform_resolve 1 = c4client) :=
  ⟨rfl, c4_locked_behavior c4client 1 TransactionType.Withdrawal 3 rfl⟩

/-- One ledger operation never clears the lock. -/
theorem locked_execute_mono (c : Client) (tx : Nat) (ty : TransactionType) (a : ℚ)
    (h : c.locked = true) : (c.execute_transaction tx ty a).locked = true := by
  cases ty <;>
    simp only [Client.execute_transaction, Client.perform_deposit, Client.perform_withdrawal,
      Client.perform_dispute, Client.perform_resolve, Client.perform_chargeback] <;>
    (repeat' split) <;> simp_all

/-- Claim C8 (confirmed): the lock is one-way — once a client state has
`locked = true`, no further sequence of Deposit/Withdrawal/Dispute/Resolve/
Chargeback operations ever clears it. -/
theorem c8_lock_one_way (c : Client) (ops : List (Nat × TransactionType × ℚ))
    (h : c.locked = true) : (c.apply_all ops).locked = true := by
  induction ops generalizing c with
  | nil => simpa [Client.apply_all] using h
  | cons op rest ih =>
      have hstep := locked_execute_mono c op.1 op.2.1 op.2.2 h
      simpa [Client.apply_all, List.foldl_cons] using ih _ hstep

/-- Counterexample to claim C2: a record with the client identifier absent is
not skipped with the run continuing — `process_transactions` unwraps the
missing field, which panics (modelled by `none`), so the result is not the
unchanged engine and the run is aborted. -/
theorem c2_missing_client_aborts :
    TransactionEngine.new.process_transactions c2record ≠ some TransactionEngine.new ∧
    TransactionEngine.new.process_transactions c2record = none := by
  refine ⟨?_, rfl⟩
  simp [TransactionEngine.process_transactions, c2record]

/-- Claim C2 (corrected): a record missing its client identifier or its
transaction identifier makes `process_transactions` panic on `unwrap`
(modelled by `none`), aborting the whole run; no `MalformedRecord` error is
produced, the record is not merely skipped, and subsequent records are never
reached. -/
theorem c2_missing_id_aborts (e : TransactionEngine) (r : Record)
    (h : r.client = none ∨ r.tx = none) :
    e.process_transactions r = none := by
  rcases h with h | h
  · simp [TransactionEngine.process_transactions, h]
  · cases hc : r.client <;> simp [TransactionEngine.process_transactions, h, hc]

/-- Witness for C2 (amended) at a concrete engine and record. -/
theorem c2_missing_id_aborts_witness :
    (c2record.client = none ∨ c2record.tx = none) ∧
    TransactionEngine.new.process_transactions c2record = none :=
  ⟨Or.inl rfl, c2_missing_id_aborts TransactionEngine.new c2record (Or.inl rfl)⟩

/-- Witness for C8: a locked client stays locked across a concrete operation
sequence. -/
theorem c8_lock_one_way_witness :
    c4client.locked = true ∧
    (c4client.apply_all
      [(1, TransactionType.Resolve, 0), (2, TransactionType.Deposit, 3),
       (2, TransactionType.Withdrawal, 1)]).locked = true :=
  ⟨rfl,
   c8_lock_one_way c4client
     [(1, TransactionType.Resolve, 0), (2, TransactionType.Deposit, 3),
      (2, TransactionType.Withdrawal, 1)] rfl⟩

/-- Counterexample to claim C7: the account created by a first-sight Dispute
record is not in a non-disputed state — its single history entry has kind
`Dispute` — and a subsequent Chargeback referencing the same tx is not a
no-op: it locks the account. -/
theorem c7_first_dispute_seeds_disputed :
    ((TransactionEngine.new.process_transactions c7recordDispute).bind
        (fun e => e.clients 1)).bind (fun c => c.transactions 1) =
      some (TransactionType.Dispute, 0) ∧
    (((TransactionEngine.new.process_transactions c7recordDispute).bind
        (fun e => e.process_transactions c7recordChargeback)).bind
        (fun e => e.clients 1)).map Client.locked = some true := by
  exact ⟨rfl, rfl⟩

/-- Claim C7 (corrected): routing a first-sight Dispute/Resolve/Chargeback
record seeds an unlocked account with `available` equal to the record's
amount (zero when absent), `held = 0`, `total = 0`, and a single history
entry `(kind, amount)`. When the kind is Resolve or Chargeback that entry is
not in disputed state and re-referencing the tx with Resolve or Chargeback is
a no-op; but when the kind is Dispute the entry is in disputed state, and a
subsequent Chargeback on the same tx locks the account. -/
theorem c7_first_lifecycle_seeding (e : TransactionEngine) (r : Record)
    (cid tx : Nat) (ty : TransactionType)
    (hnew : e.clients cid = none)
    (hc : r.client = some cid) (ht : r.tx = some tx)
    (hty : TransactionType.fromString r.type = ty)
    (hkind : ty = TransactionType.Dispute ∨ ty = TransactionType.Resolve ∨
      ty = TransactionType.Chargeback) :
    e.process_transactions r =
      some (e.insertClient cid (Client.new cid tx ty (r.amount.getD 0))) ∧
    (Client.new cid tx ty (r.amount.getD 0)).available = r.amount.getD 0 ∧
    (Client.new cid tx ty (r.amount.getD 0)).held = 0 ∧
    (Client.new cid tx ty (r.amount.getD 0)).total = 0 ∧
    (Client.new cid tx ty (r.amount.getD 0)).locked = false ∧
    (Client.new cid tx ty (r.amount.getD 0)).transactions tx =
      some (ty, r.amount.getD 0) ∧
    ((ty = TransactionType.Resolve ∨ ty = TransactionType.Chargeback) →
      (Client.new cid tx ty (r.amount.getD 0)).perform_resolve tx =
        Client.new cid tx ty (r.amount.getD 0) ∧
      (Client.new cid tx ty (r.amount.getD 0)).perform_chargeback tx =
        Client.new cid tx ty (r.amount.getD 0)) ∧
    (ty = TransactionType.Dispute →
      ((Client.new cid tx ty (r.amount.getD 0)).perform_chargeback tx).locked = true) := by
  refine ⟨?_, rfl, rfl, ?_, rfl, ?_, ?_, ?_⟩
  · simp [TransactionEngine.process_transactions, hc, ht, hnew, hty]
  · rcases hkind with h | h | h <;> subst h <;> simp [Client.new]
  · simp [Client.new]
  · intro hterm
    have hne : ¬ty = TransactionType.Dispute := by
      rcases hterm with h | h <;> subst h <;> simp
    constructor
    · simp [Client.perform_resolve, Client.new, hne]
    · simp [Client.perform_chargeback, Client.new, hne]
  · intro hdisp
    subst hdisp
    simp [Client.perform_chargeback, Client.new]

/-- Witness for C7 (amended) at a concrete first-sight chargeback record. -/
theorem c7_first_lifecycle_seeding_witness :
    (TransactionEngine.new.clients 1 = none ∧
     c7recordChargeback.client = some 1 ∧
     c7recordChargeback.tx = some 1 ∧
     TransactionType.fromString c7recordChargeback.type = TransactionType.Chargeback) ∧
    (TransactionEngine.new.process_transactions c7recordChargeback =
      some (TransactionEngine.new.insertClient 1
        (Client.new 1 1 TransactionType.Chargeback (c7recordChargeback.amount.getD 0))) ∧
     (Client.new 1 1 TransactionType.Chargeback
       (c7recordChargeback.amount.getD 0)).available = c7recordChargeback.amount.getD 0 ∧
     (Client.new 1 1 TransactionType.Chargeback
       (c7recordChargeback.amount.getD 0)).held = 0 ∧
     (Client.new 1 1 TransactionType.Chargeback
       (c7recordChargeback.amount.getD 0)).total = 0 ∧
     (Client.new 1 1 TransactionType.Chargeback
       (c7recordChargeback.amount.getD 0)).locked = false ∧
     (Client.new 1 1 TransactionType.Chargeback
       (c7recordChargeback.amount.getD 0)).transactions 1 =
       some (TransactionType.Chargeback, c7recordChargeback.amount.getD 0) ∧
     ((TransactionType.Chargeback = TransactionType.Resolve ∨
       TransactionType.Chargeback = TransactionType.Chargeback) →
       (Client.new 1 1 TransactionType.Chargeback
         (c7recordChargeback.amount.getD 0)).perform_resolve 1 =
         Client.new 1 1 TransactionType.Chargeback (c7recordChargeback.amount.getD 0) ∧
       (Client.new 1 1 TransactionType.Chargeback
         (c7recordChargeback.amount.getD 0)).perform_chargeback 1 =
         Client.new 1 1 TransactionType.Chargeback (c7recordChargeback.amount.getD 0)) ∧
     (TransactionType.Chargeback = TransactionType.Dispute →
       ((Client.new 1 1 TransactionType.Chargeback
         (c7recordChargeback.amount.getD 0)).perform_chargeback 1).locked = true)) :=
  ⟨⟨rfl, rfl, rfl, rfl⟩,
   c7_first_lifecycle_seeding TransactionEngine.new c7recordChargeback 1 1
     TransactionType.Chargeback rfl rfl rfl rfl
     (Or.inr (Or.inr rfl))⟩

/-- Claim C9 (confirmed): from an empty engine, Deposit 10 (tx 1), Dispute
(tx 1), Chargeback (tx 1) for client 1 ends with
`available = 0`, `held = 0`, `total = 0`, `locked = true`. -/
theorem c9_end_to_end :
    ((((TransactionEngine.new.process_transactions c9record1).bind
        (fun e => e.process_transactions c9record2)).bind
        (fun e => e.process_transactions c9record3)).bind
        (fun e => e.clients 1)).map
        (fun c => (c.available, c.held, c.total, c.locked)) =
      some (0, 0, 0, true) := by
  simp [TransactionEngine.process_transactions, TransactionEngine.new,
    TransactionEngine.insertClient, TransactionType.fromString, Client.new,
    Client.execute_transaction, Client.perform_dispute, Client.perform_chargeback,
    c9record1, c9record2, c9record3]

/-- Claim C10 (confirmed): the first record for an unseen client only seeds a
new account and never dispatches the ledger operation; in particular a first
Withdrawal of amount `a` credits `available = a` with `held = 0`, `total = 0`,
`locked = false`, and history entry `(Withdrawal, a)`. -/
theorem c10_first_record_seeds_only (e : TransactionEngine) (r : Record)
    (cid tx : Nat) (a : ℚ)
    (hnew : e.clients cid = none) (hc : r.client = some cid) (ht : r.tx = some tx) :
    e.process_transactions r =
      some (e.insertClient cid
        (Client.new cid tx (TransactionType.fromString r.type) (r.amount.getD 0))) ∧
    (Client.new cid tx TransactionType.Withdrawal a).available = a ∧
    (Client.new cid tx TransactionType.Withdrawal a).held = 0 ∧
    (Client.new cid tx TransactionType.Withdrawal a).total = 0 ∧
    (Client.new cid tx TransactionType.Withdrawal a).locked = false ∧
    (Client.new cid tx TransactionType.Withdrawal a).transactions tx =
      some (TransactionType.Withdrawal, a) ∧
    TransactionType.fromString "withdrawal" = TransactionType.Withdrawal := by
  refine ⟨?_, rfl, rfl, ?_, rfl, ?_, rfl⟩
  · simp [TransactionEngine.process_transactions, hc, ht, hnew]
  · simp [Client.new]
  · simp [Client.new]

/-- Witness for C10 at a concrete first-sight withdrawal record. -/
theorem c10_first_record_seeds_only_witness :
    (TransactionEngine.new.clients 2 = none) ∧
    (TransactionEngine.new.process_transactions
        { type := "withdrawal", client := some 2, tx := some 9, amount := some 4 } =
      some (TransactionEngine.new.insertClient 2
        (Client.new 2 9
          (TransactionType.fromString
            (Record.type
              { type := "withdrawal", client := some 2, tx := some 9, amount := some 4 }))
          (Option.getD
            (Record.amount
              { type := "withdrawal", client := some 2, tx := some 9, amount := some 4 }) 0))) ∧
     (Client.new 2 9 TransactionType.Withdrawal 4).available = 4 ∧
     (Client.new 2 9 TransactionType.Withdrawal 4).held = 0 ∧
     (Client.new 2 9 TransactionType.Withdrawal 4).total = 0 ∧
     (Client.new 2 9 TransactionType.Withdrawal 4).locked = false ∧
     (Client.new 2 9 TransactionType.Withdrawal 4).transactions 9 =
       some (TransactionType.Withdrawal, 4) ∧
     TransactionType.fromString "withdrawal" = TransactionType.Withdrawal) :=
  ⟨rfl,
   c10_first_record_seeds_only TransactionEngine.new
     { type := "withdrawal", client := some 2, tx := some 9, amount := some 4 }
     2 9 4 rfl rfl rfl⟩
